import Mathlib

/-!
Shallow embedding of `modules/video_coding/codecs/h264/h264_decoder_impl.cc`
(class `H264DecoderImpl`) and `api/video/native_handle_buffer.h`
(class `NativeHandleBuffer`).

Pointers are modelled as integers (addresses), reference-counted COM/FFmpeg
handles as `Option` fields plus an explicit counter of issued `->Release()`
calls, and the external FFmpeg/D3D11 collaborators as oracle records whose
fields give the outcome of each external call.  `RTC_DCHECK` is a debug-only
assertion that is compiled out of release builds; it is embedded as a
separate predicate mirroring the asserted expression, never as control flow,
matching the shipped (release) semantics of the source.
-/

namespace H264Dec

/-- `AVPixelFormat` values that appear in the source
(`kPixelFormatsSupported`, `AV_PIX_FMT_D3D11`, `AV_PIX_FMT_NONE`). -/
inductive AVPixelFormat where
  | yuv420p | yuv422p | yuv444p
  | yuvj420p | yuvj422p | yuvj444p
  | yuv420p10le | yuv422p10le | yuv444p10le
  | nv12 | d3d11
  | noneFmt
  deriving DecidableEq, Repr

/-- `kPixelFormatsSupported` (h264_decoder_impl.cc:45-49). -/
def kPixelFormatsSupported : List AVPixelFormat :=
  [.yuv420p, .yuv422p, .yuv444p,
   .yuvj420p, .yuvj422p, .yuvj444p,
   .yuv420p10le, .yuv422p10le, .yuv444p10le,
   .nv12, .d3d11]

/-- The `get_format` lambda installed at h264_decoder_impl.cc:452-461: walks
the candidate list until the `AV_PIX_FMT_NONE` sentinel, returning
`AV_PIX_FMT_D3D11` as soon as it is seen, else `AV_PIX_FMT_NONE`.  The list
argument is the candidate array up to (excluding) the sentinel. -/
def getFormatScan : List AVPixelFormat → AVPixelFormat
  | [] => .noneFmt
  | f :: rest => if f = .d3d11 then .d3d11 else getFormatScan rest

/-- The second `get_format` lambda installed after a successful hardware open
(h264_decoder_impl.cc:559-575).  Its loop advances two synchronized cursors
(`p` in the for-header, `pix_fmts` in the body) which stay equal until either
a return or the `-1` sentinel, so its selection behaviour is the same scan. -/
def getFormatScan2 : List AVPixelFormat → AVPixelFormat
  | [] => .noneFmt
  | f :: rest => if f = .d3d11 then .d3d11 else getFormatScan2 rest

/-- `VideoCodecType` values relevant to `Configure`. -/
inductive VideoCodecType where
  | kVideoCodecH264 | kVideoCodecVP8 | kVideoCodecVP9 | kVideoCodecGeneric
  deriving DecidableEq, Repr

/-- `RenderResolution` from the decoder `Settings` (width/height hint). -/
structure RenderResolution where
  width : Int
  height : Int
  deriving DecidableEq, Repr

/-- `RenderResolution::Valid()`: both dimensions positive (the hint is usable). -/
def RenderResolution.valid (r : RenderResolution) : Bool :=
  0 < r.width && 0 < r.height

/-- `VideoDecoder::Settings` as used by `Configure`. -/
structure Settings where
  codecType : VideoCodecType
  maxRenderResolution : RenderResolution
  bufferPoolSize : Option Nat
  deriving DecidableEq, Repr

/-- The WebRTC return codes `Decode`/`Release` use:
`WEBRTC_VIDEO_CODEC_OK`, `_ERROR`, `_ERR_PARAMETER`, `_UNINITIALIZED`. -/
inductive DecRet where
  | ok | error | errParameter | uninitialized
  deriving DecidableEq, Repr

/-- The per-instance slice of `AVCodecContext` state the decoder reads/writes. -/
structure AVContext where
  pixFmt : AVPixelFormat
  codedWidth : Int
  codedHeight : Int
  hwDeviceCtxSet : Bool
  getBuffer2Set : Bool
  reorderedOpaque : Int
  deriving DecidableEq, Repr

/-- A D3D11 texture, carrying the (width, height) it was created with
(`CreateSharedTexture`, h264_decoder_impl.cc:322-337). -/
structure Texture where
  width : Int
  height : Int
  deriving DecidableEq, Repr

/-- `VideoFrameBuffer::Type` values used in the software-path switches. -/
inductive VFBType where
  | kI420 | kI444 | kI422 | kI010 | kI210 | kI410 | kNative | kOther
  deriving DecidableEq, Repr

/-- The pooled planar allocation backing a software-path `av_frame_`
(the `VideoFrame` stashed in `av_frame_->buf[0]` by `AVGetBuffer2`):
plane base addresses, strides (in samples, as the buffer classes report
them), allocation dimensions and chroma dimensions. -/
structure BackingBuffer where
  btype : VFBType
  dataY : Int
  dataU : Int
  dataV : Int
  strideY : Int
  strideU : Int
  strideV : Int
  width : Int
  height : Int
  chromaW : Int
  chromaH : Int
  deriving DecidableEq, Repr

/-- The slice of `AVFrame` the decoder reads after `avcodec_receive_frame`:
reported dimensions, round-tripped `reordered_opaque`, plane pointers and
linesizes (bytes), and the backing allocation reachable through `buf[0]`
(software path; unused on the hardware path, where `data[0]` is the
texture pointer). -/
structure AVFrameModel where
  width : Int
  height : Int
  reorderedOpaque : Int
  data0 : Int
  data1 : Int
  data2 : Int
  ls0 : Int
  ls1 : Int
  ls2 : Int
  backing : BackingBuffer
  deriving DecidableEq, Repr

/-- A frame buffer as delivered downstream: either the hardware path's
`NativeHandleBuffer` wrapping a GPU texture pointer, or the software path's
`WrapI4xxBuffer` view over the pooled allocation. -/
inductive VFB where
  | native (handle : Int) (width : Int) (height : Int)
  | wrapped (t : VFBType) (width : Int) (height : Int)
      (dY dU dV : Int) (lsY lsU lsV : Int)
  deriving DecidableEq, Repr

/-- `VideoFrameBuffer::type()`: `NativeHandleBuffer::type()` returns
`Type::kNative` (native_handle_buffer.h:28); a wrapped planar buffer
reports its planar type. -/
def VFB.bufferType : VFB → VFBType
  | .native _ _ _ => .kNative
  | .wrapped t _ _ _ _ _ _ _ _ => t

/-- `VideoFrameBuffer::ToI420()`: `NativeHandleBuffer::ToI420()` returns
`nullptr` (native_handle_buffer.h:31-33); wrapped planar buffers convert. -/
def VFB.toI420 : VFB → Option Unit
  | .native _ _ _ => none
  | .wrapped _ _ _ _ _ _ _ _ _ => some ()

/-- One `VideoFrame` handed to `DecodedImageCallback::Decoded`. -/
structure DeliveredFrame where
  buffer : VFB
  timestampRtp : Nat
  colorSpace : Int
  qp : Option Int
  deriving DecidableEq, Repr

/-- The mutable state of one `H264DecoderImpl` instance, plus two
observation traces: `relOps` counts `->Release()` calls issued on the
D3D11 COM handles, and `delivered` records the frames handed to the
registered callback.  `initEmits`/`errorEmits` count the histogram
samples this instance added ("telemetry events"). -/
structure DecoderState where
  avContext : Option AVContext
  avFrame : Bool
  decodedImageCallback : Bool
  hasReportedInit : Bool
  hasReportedError : Bool
  initEmits : Nat
  errorEmits : Nat
  d3dDevice : Option Nat
  d3dDeviceContext : Option Nat
  d3dTexture : Option Texture
  hwDeviceContext : Bool
  hwFramesContext : Bool
  textureWidth : Int
  textureHeight : Int
  relOps : Nat
  delivered : List DeliveredFrame
  deriving DecidableEq, Repr

/-- A freshly constructed `H264DecoderImpl` (constructor,
h264_decoder_impl.cc:277-281: null callback, both report flags false;
all handles null). -/
def freshState : DecoderState :=
  { avContext := none
    avFrame := false
    decodedImageCallback := false
    hasReportedInit := false
    hasReportedError := false
    initEmits := 0
    errorEmits := 0
    d3dDevice := none
    d3dDeviceContext := none
    d3dTexture := none
    hwDeviceContext := false
    hwFramesContext := false
    textureWidth := 0
    textureHeight := 0
    relOps := 0
    delivered := [] }

/-- `H264DecoderImpl::IsInitialized` (h264_decoder_impl.cc:1013-1015):
`av_context_ != nullptr`. -/
def IsInitialized (st : DecoderState) : Bool :=
  st.avContext.isSome

/-- `H264DecoderImpl::ReportInit` (h264_decoder_impl.cc:1017-1023): emit the
init histogram sample once, guarded by the instance flag `has_reported_init_`. -/
def reportInit (st : DecoderState) : DecoderState :=
  if st.hasReportedInit then st
  else { st with hasReportedInit := true, initEmits := st.initEmits + 1 }

/-- `H264DecoderImpl::ReportError` (h264_decoder_impl.cc:1025-1031): emit the
error histogram sample once, guarded by the instance flag
`has_reported_error_`. -/
def reportError (st : DecoderState) : DecoderState :=
  if st.hasReportedError then st
  else { st with hasReportedError := true, errorEmits := st.errorEmits + 1 }

/-- `H264DecoderImpl::Release` (h264_decoder_impl.cc:613-635).  Calls
`->Release()` on `d3dDevice_`, `d3dDeviceContext_`, `d3dTexture_` when
non-null — without nulling those member fields — unrefs (and nulls) the two
AV hardware context refs, and resets `av_context_` and `av_frame_`. -/
def releaseImpl (st : DecoderState) : DecoderState :=
  { st with relOps := st.relOps +
              (if st.d3dDevice.isSome then 1 else 0) +
              (if st.d3dDeviceContext.isSome then 1 else 0) +
              (if st.d3dTexture.isSome then 1 else 0)
            hwFramesContext := false
            hwDeviceContext := false
            avContext := none
            avFrame := false }

/-- `Release` returns `WEBRTC_VIDEO_CODEC_OK` unconditionally. -/
def Release (st : DecoderState) : DecRet × DecoderState :=
  (.ok, releaseImpl st)

/-- `H264DecoderImpl::RegisterDecodeCompleteCallback`
(h264_decoder_impl.cc:637-641). -/
def RegisterDecodeCompleteCallback (st : DecoderState) (cb : Bool) :
    DecRet × DecoderState :=
  (.ok, { st with decodedImageCallback := cb })

/-- `H264DecoderImpl::InitializeD3D11Device` (h264_decoder_impl.cc:339-366):
creates the device only when `d3dDevice_ == nullptr`; the oracle
`deviceCreateOk` gives the outcome of `D3D11CreateDevice`. -/
def initializeD3D11Device (st : DecoderState) (deviceCreateOk : Bool) :
    Int × DecoderState :=
  if st.d3dDevice.isNone then
    if deviceCreateOk then
      (0, { st with d3dDevice := some 1, d3dDeviceContext := some 1 })
    else (-1, st)
  else (0, st)

/-- `H264DecoderImpl::InitializeD3D11Texture` (h264_decoder_impl.cc:368-386):
releases the old texture if present (without nulling first — the field is
overwritten by the allocation result), then allocates a shared texture of
exactly (width, height); `allocOk` is the `CreateTexture2D` outcome, and on
failure the field holds the returned `nullptr`. -/
def initializeD3D11Texture (st : DecoderState) (width height : Int)
    (allocOk : Bool) : Int × DecoderState :=
  (if allocOk then 0 else -1,
   { st with relOps := st.relOps + (if st.d3dTexture.isSome then 1 else 0)
             d3dTexture := if allocOk then some ⟨width, height⟩ else none })

/-- Outcomes of the external calls `Configure` makes (FFmpeg codec lookup,
D3D11 device/texture creation, hw-frames-context init, the two
`avcodec_open2` attempts, and the buffer-pool resize). -/
structure ConfigureEnv where
  codecFound : Bool
  deviceCreateOk : Bool
  texAllocOk : Bool
  hwFrameCtxInitOk : Bool
  openHwOk : Bool
  openSwOk : Bool
  poolResizeOk : Bool
  deriving DecidableEq, Repr

/-- Tail of `Configure` after the open branch (h264_decoder_impl.cc:578-610):
`av_frame_.reset(av_frame_alloc())`, the optional buffer-pool resize (whose
failure returns `false` with no `Release` and no `ReportError`), the test
packet alloc/free (no state effect), then `return true`. -/
def configureTail (st : DecoderState) (s : Settings) (env : ConfigureEnv) :
    Bool × DecoderState :=
  let st := { st with avFrame := true }
  match s.bufferPoolSize with
  | some _ => if env.poolResizeOk then (true, st) else (false, st)
  | none => (true, st)

/-- `H264DecoderImpl::Configure` (h264_decoder_impl.cc:388-611).
Mirrors the source control flow: `ReportInit`; reject non-H264 codec types
(`ReportError`, `return false`, with no other state change); implicit
`Release`; allocate and populate the `AVCodecContext` (pix_fmt is set to
`AV_PIX_FMT_D3D11`, coded dimensions from the hint when valid); codec
lookup (failure: `Release`, `ReportError`, `false`); hw device context
alloc; `InitializeD3D11Device` and `InitializeD3D11Texture` at the hint
resolution, both return values ignored; hw frames context init (on success
`hw_device_ctx` is set on the context); `avcodec_open2`, retried without
reporting on failure — a second failure releases, reports and returns
`false`, while the software fallback installs `AVGetBuffer2`; then the
common tail. -/
def Configure (st : DecoderState) (s : Settings) (env : ConfigureEnv) :
    Bool × DecoderState :=
  let st := reportInit st
  if s.codecType ≠ .kVideoCodecH264 then (false, reportError st)
  else
    let rel := Release st
    let st := rel.2
    if rel.1 ≠ .ok then (false, reportError st)
    else
      let res := s.maxRenderResolution
      let ctx : AVContext :=
        { pixFmt := .d3d11
          codedWidth := if res.valid then res.width else 0
          codedHeight := if res.valid then res.height else 0
          hwDeviceCtxSet := false
          getBuffer2Set := false
          reorderedOpaque := 0 }
      let st := { st with avContext := some ctx }
      if !env.codecFound then
        (false, reportError (Release st).2)
      else
        let st := { st with hwDeviceContext := true }
        let st := (initializeD3D11Device st env.deviceCreateOk).2
        let st := (initializeD3D11Texture st res.width res.height env.texAllocOk).2
        let st := { st with hwFramesContext := true }
        let st :=
          if env.hwFrameCtxInitOk then
            { st with avContext :=
                st.avContext.map (fun c => { c with hwDeviceCtxSet := true }) }
          else st
        if env.openHwOk then
          configureTail st s env
        else if env.openSwOk then
          let st := { st with avContext :=
              st.avContext.map (fun c => { c with getBuffer2Set := true }) }
          configureTail st s env
        else
          (false, reportError (Release st).2)

/-- One `EncodedImage` passed to `Decode`: whether `data()` is non-null,
`size()`, the RTP `Timestamp()`, `ntp_time_ms_`, and the optional explicit
`ColorSpace()`. -/
structure EncodedImage where
  dataPresent : Bool
  size : Nat
  timestamp : Nat
  ntpTimeMs : Int
  colorSpace : Option Int
  deriving DecidableEq, Repr

/-- Outcomes of the external calls one `Decode` makes: `av_packet_alloc`,
`avcodec_send_packet`, `avcodec_receive_frame`, the pixel format FFmpeg
left in `av_context_->pix_fmt` when the frame came out, the received
`AVFrame`, the `CreateTexture2D` outcome for a hardware-path reallocation,
the QP from the bitstream parser and the stream-derived color space. -/
structure EngineOutcome where
  packetAllocOk : Bool
  sendOk : Bool
  recvOk : Bool
  ctxPixFmt : AVPixelFormat
  frame : AVFrameModel
  texAllocOk : Bool
  qp : Option Int
  streamColorSpace : Int
  deriving DecidableEq, Repr

/-- `INT_MAX`: `std::numeric_limits<int>::max()` in the oversized-packet
check (h264_decoder_impl.cc:670-674). -/
def intMax : Nat := 2147483647

/-- Buffer types accepted by the software-path switches
(h264_decoder_impl.cc:796-838). -/
def supportedVFBType : VFBType → Bool
  | .kI420 | .kI444 | .kI422 | .kI010 | .kI210 | .kI410 => true
  | _ => false

/-- The 8-bit plane-bounds assertions (h264_decoder_impl.cc:849-869),
exactly as the `RTC_DCHECK_GE`/`RTC_DCHECK_LE` expressions read: the Y
check uses the frame's reported height, the chroma checks use the
allocation's `ChromaHeight()` on both sides. -/
def planeBounds8 (f : AVFrameModel) (b : BackingBuffer) : Bool :=
  b.dataY ≤ f.data0 &&
  f.data0 + f.ls0 * f.height ≤ b.dataY + b.strideY * b.height &&
  b.dataU ≤ f.data1 &&
  f.data1 + f.ls1 * b.chromaH ≤ b.dataU + b.strideU * b.chromaH &&
  b.dataV ≤ f.data2 &&
  f.data2 + f.ls2 * b.chromaH ≤ b.dataV + b.strideV * b.chromaH

/-- The 16-bit plane-bounds assertions (h264_decoder_impl.cc:874-902):
identical shape with byte strides `Stride*() * 2`. -/
def planeBounds16 (f : AVFrameModel) (b : BackingBuffer) : Bool :=
  b.dataY ≤ f.data0 &&
  f.data0 + f.ls0 * f.height ≤ b.dataY + b.strideY * 2 * b.height &&
  b.dataU ≤ f.data1 &&
  f.data1 + f.ls1 * b.chromaH ≤ b.dataU + b.strideU * 2 * b.chromaH &&
  b.dataV ≤ f.data2 &&
  f.data2 + f.ls2 * b.chromaH ≤ b.dataV + b.strideV * 2 * b.chromaH

/-- The cropping-invariant assertion block of the software path
(h264_decoder_impl.cc:843-911), dispatched on the backing buffer type.
These are `RTC_DCHECK`s: debug-only, compiled out of release builds. -/
def boundsOk (f : AVFrameModel) : Bool :=
  match f.backing.btype with
  | .kI420 | .kI444 | .kI422 => planeBounds8 f f.backing
  | .kI010 | .kI210 | .kI410 => planeBounds16 f f.backing
  | _ => true

/-- The dimension assertions `RTC_DCHECK_LE(av_frame_->width, buffer width)`
and likewise for height (h264_decoder_impl.cc:843-844). -/
def dimsOk (f : AVFrameModel) : Bool :=
  f.width ≤ f.backing.width && f.height ≤ f.backing.height

/-- The `WrapI4xxBuffer` call of the software path
(h264_decoder_impl.cc:913-984): the exposed view uses the frame's reported
dimensions and plane pointers, with the frame linesizes as strides — halved
for the 16-bit wrappers. -/
def cropWrap (f : AVFrameModel) : VFB :=
  match f.backing.btype with
  | .kI010 | .kI210 | .kI410 =>
      .wrapped f.backing.btype f.width f.height f.data0 f.data1 f.data2
        (f.ls0 / 2) (f.ls1 / 2) (f.ls2 / 2)
  | t => .wrapped t f.width f.height f.data0 f.data1 f.data2 f.ls0 f.ls1 f.ls2

/-- The `RTC_DCHECK_EQ(av_frame_->reordered_opaque, frame_timestamp_us)`
round-trip timestamp assertion (h264_decoder_impl.cc:695-697); debug-only. -/
def tsRoundTripOk (input : EncodedImage) (eng : EngineOutcome) : Bool :=
  eng.frame.reorderedOpaque == input.ntpTimeMs * 1000

/-- Deliver the hardware-path frame (h264_decoder_impl.cc:713-781): a
`NativeHandleBuffer` around the texture pointer in `av_frame_->data[0]`
sized `texture_width × texture_height`, RTP timestamp from the input
image, explicit input color space taking precedence over the one
extracted from the stream. -/
def deliverHw (st : DecoderState) (input : EncodedImage) (eng : EngineOutcome) :
    DecRet × DecoderState :=
  let frame : DeliveredFrame :=
    { buffer := .native eng.frame.data0 st.textureWidth st.textureHeight
      timestampRtp := input.timestamp
      colorSpace := input.colorSpace.getD eng.streamColorSpace
      qp := eng.qp }
  (.ok, { st with delivered := st.delivered ++ [frame] })

/-- Deliver the software-path frame (h264_decoder_impl.cc:986-1006). -/
def deliverSw (st : DecoderState) (input : EncodedImage) (eng : EngineOutcome) :
    DecRet × DecoderState :=
  let frame : DeliveredFrame :=
    { buffer := cropWrap eng.frame
      timestampRtp := input.timestamp
      colorSpace := input.colorSpace.getD eng.streamColorSpace
      qp := eng.qp }
  (.ok, { st with delivered := st.delivered ++ [frame] })

/-- `H264DecoderImpl::Decode` (h264_decoder_impl.cc:643-1007).  Check order
as in the source: initialized, callback registered, empty packet, packet
alloc, oversized packet, `avcodec_send_packet`, `avcodec_receive_frame`;
then the hardware path (D3D11 pixel format: reallocate the texture when
the picture dimensions differ from the recorded ones — recording the new
dimensions before the allocation attempt — failing the call without
reporting if allocation fails, else delivering a native-handle frame) or
the software path (reject unsupported backing buffer types, assert bounds
(debug only), wrap the reported view and deliver). -/
def Decode (st : DecoderState) (input : EncodedImage) (eng : EngineOutcome) :
    DecRet × DecoderState :=
  if !(IsInitialized st) then (.uninitialized, reportError st)
  else if !st.decodedImageCallback then (.uninitialized, reportError st)
  else if !input.dataPresent || input.size == 0 then (.errParameter, reportError st)
  else if !eng.packetAllocOk then (.error, reportError st)
  else if intMax < input.size then (.error, reportError st)
  else
    let frameTsUs := input.ntpTimeMs * 1000
    let st := { st with avContext :=
        st.avContext.map (fun c => { c with reorderedOpaque := frameTsUs }) }
    if !eng.sendOk then (.error, reportError st)
    else if !eng.recvOk then (.error, reportError st)
    else
      let st := { st with avContext :=
          st.avContext.map (fun c => { c with pixFmt := eng.ctxPixFmt }) }
      if eng.ctxPixFmt = .d3d11 then
        if eng.frame.width ≠ st.textureWidth ∨ eng.frame.height ≠ st.textureHeight then
          let st := { st with textureWidth := eng.frame.width
                              textureHeight := eng.frame.height }
          let r :=
            initializeD3D11Texture st eng.frame.width eng.frame.height eng.texAllocOk
          if r.1 ≠ 0 then (.error, r.2)
          else deliverHw r.2 input eng
        else deliverHw st input eng
      else
        if supportedVFBType eng.frame.backing.btype then
          deliverSw st input eng
        else (.error, reportError st)

/-- `bytes_per_pixel` as set by the `AVGetBuffer2` switch
(h264_decoder_impl.cc:129-237): 2 for the 10-bit formats, 1 otherwise. -/
def bytesPerPixel : AVPixelFormat → Int
  | .yuv420p10le | .yuv422p10le | .yuv444p10le => 2
  | _ => 1

/-- `ChromaWidth()`/`ChromaHeight()` of the pooled buffer created for each
pixel format.  Modelled from the spec: the buffer classes (`I420Buffer`,
`I422Buffer`, `I444Buffer`, `I010Buffer`, `I210Buffer`, `I410Buffer`,
`NV12Buffer`) are not under src/; per the spec's subsampling factors,
4:2:0 and semi-planar 4:2:0 halve both chroma dimensions (rounding up),
4:2:2 halves only the width, 4:4:4 halves neither. -/
def chromaDims : AVPixelFormat → Int → Int → Int × Int
  | .yuv420p, w, h | .yuvj420p, w, h | .yuv420p10le, w, h | .nv12, w, h =>
      ((w + 1) / 2, (h + 1) / 2)
  | .yuv422p, w, h | .yuvj422p, w, h | .yuv422p10le, w, h =>
      ((w + 1) / 2, h)
  | .yuv444p, w, h | .yuvj444p, w, h | .yuv444p10le, w, h => (w, h)
  | _, _, _ => (0, 0)

/-- The plane pointers and linesizes `AVGetBuffer2` stores into the
`AVFrame` before the contiguity assertions. -/
structure AVFramePlanes where
  data0 : Int
  data1 : Int
  data2 : Int
  ls0 : Int
  ls1 : Int
  ls2 : Int
  deriving DecidableEq, Repr

/-- The per-format buffer setup of `H264DecoderImpl::AVGetBuffer2`
(h264_decoder_impl.cc:121-237) for an aligned `width × height` allocation
whose first plane starts at `base`.  Which `data[i]`/`linesize[i]` entries
are written follows the source switch: the three-plane formats set all
three, the NV12 case sets only `data[0]`/`data[1]` (the incoming frame's
remaining pointers are zero).  Modelled from the spec: the pooled buffer
classes themselves are not under src/; per spec §4.4 their planes are laid
out contiguously in engine order with stride = width (chroma stride =
chroma width), 10-bit planes holding 2-byte samples (the source multiplies
the stored linesizes by 2 accordingly); `none` is the switch's default
branch (unsupported buffer type, `return -1`). -/
def avGetBuffer2Planes (fmt : AVPixelFormat) (width height base : Int) :
    Option AVFramePlanes :=
  let cw := (chromaDims fmt width height).1
  let ch := (chromaDims fmt width height).2
  match fmt with
  | .yuv420p | .yuvj420p | .yuv422p | .yuvj422p | .yuv444p | .yuvj444p =>
      some { data0 := base, ls0 := width
             data1 := base + width * height, ls1 := cw
             data2 := base + width * height + cw * ch, ls2 := cw }
  | .yuv420p10le | .yuv422p10le | .yuv444p10le =>
      some { data0 := base, ls0 := width * 2
             data1 := base + 2 * (width * height), ls1 := cw * 2
             data2 := base + 2 * (width * height) + 2 * (cw * ch), ls2 := cw * 2 }
  | .nv12 =>
      some { data0 := base, ls0 := width
             data1 := base + width * height, ls1 := 2 * cw
             data2 := 0, ls2 := 0 }
  | _ => none

/-- The contiguity assertions of `AVGetBuffer2` (h264_decoder_impl.cc:239-246):
`y_size = width * height * bytes_per_pixel`,
`uv_size = ChromaWidth() * ChromaHeight() * bytes_per_pixel`,
`RTC_DCHECK_EQ(data[U], data[Y] + y_size)` and
`RTC_DCHECK_EQ(data[V], data[U] + uv_size)`. -/
def contiguityCheck (fmt : AVPixelFormat) (width height : Int)
    (p : AVFramePlanes) : Bool :=
  let bpp := bytesPerPixel fmt
  let cw := (chromaDims fmt width height).1
  let ch := (chromaDims fmt width height).2
  let ySize := width * height * bpp
  let uvSize := cw * ch * bpp
  p.data1 == p.data0 + ySize && p.data2 == p.data1 + uvSize

/-- `AVGetBuffer2`'s plane setup composed with its own contiguity
assertions; `none` when the pixel format hits the switch's error branch. -/
def allocAndCheck (fmt : AVPixelFormat) (width height base : Int) : Option Bool :=
  (avGetBuffer2Planes fmt width height base).map (contiguityCheck fmt width height)

/-- The spec's SurfaceNegotiator selection, stated from the spec's words for
comparison with the source's `get_format` callbacks: the hardware tag when
present, else the first supported planar software tag in the priority order
4:2:0 8-bit, 4:2:2 8-bit, 4:4:4 8-bit, 4:2:0 10-bit, 4:2:2 10-bit,
4:4:4 10-bit, then semi-planar 4:2:0; `none` (`NoSupportedFormat`) only if
no candidate matches any supported tag. -/
def negotiateSpec (cands : List AVPixelFormat) : Option AVPixelFormat :=
  if cands.contains .d3d11 then some .d3d11
  else
    [AVPixelFormat.yuv420p, .yuv422p, .yuv444p,
     .yuv420p10le, .yuv422p10le, .yuv444p10le, .nv12].find?
      (fun f => cands.contains f)

/-- Run `Decode` over a packet sequence, threading the state. -/
def decodeAll (st : DecoderState) :
    List (EncodedImage × EngineOutcome) → DecoderState
  | [] => st
  | (i, e) :: rest => decodeAll (Decode st i e).2 rest

/-- Every `Decode` call in the sequence returns `WEBRTC_VIDEO_CODEC_OK`. -/
def allOk (st : DecoderState) : List (EncodedImage × EngineOutcome) → Bool
  | [] => true
  | (i, e) :: rest => (Decode st i e).1 == .ok && allOk (Decode st i e).2 rest

/-- One externally invokable operation on a decoder instance. -/
inductive Op where
  | configure (s : Settings) (env : ConfigureEnv)
  | decode (input : EncodedImage) (eng : EngineOutcome)
  | release
  | registerCallback (cb : Bool)
  deriving Repr

/-- Apply one operation to the instance state. -/
def step (st : DecoderState) : Op → DecoderState
  | .configure s env => (Configure st s env).2
  | .decode i e => (Decode st i e).2
  | .release => (Release st).2
  | .registerCallback cb => (RegisterDecodeCompleteCallback st cb).2

/-- Run a sequence of operations on the instance. -/
def runOps (st : DecoderState) : List Op → DecoderState
  | [] => st
  | op :: ops => runOps (step st op) ops

/-- Telemetry invariant of an instance: each histogram counter matches its
one-time guard flag. -/
def TelInv (st : DecoderState) : Prop :=
  st.initEmits = (if st.hasReportedInit then 1 else 0) ∧
  st.errorEmits = (if st.hasReportedError then 1 else 0)

/-! ### Concrete fixtures used by counterexamples and witnesses -/

/-- A valid H.264 configuration at a 1920×1080 hint. -/
def goodSettings : Settings :=
  { codecType := .kVideoCodecH264
    maxRenderResolution := ⟨1920, 1080⟩
    bufferPoolSize := none }

/-- A configuration with an unrecognized (non-H.264) codec tag. -/
def badCodecSettings : Settings :=
  { codecType := .kVideoCodecVP8
    maxRenderResolution := ⟨1920, 1080⟩
    bufferPoolSize := none }

/-- All external calls made by `Configure` succeed. -/
def envAllOk : ConfigureEnv :=
  { codecFound := true, deviceCreateOk := true, texAllocOk := true
    hwFrameCtxInitOk := true, openHwOk := true, openSwOk := true
    poolResizeOk := true }

/-- A context as left by a software-fallback `Configure` whose stream came
out as 4:2:0 8-bit. -/
def ctxSw : AVContext :=
  { pixFmt := .yuv420p, codedWidth := 1920, codedHeight := 1080
    hwDeviceCtxSet := true, getBuffer2Set := true, reorderedOpaque := 0 }

/-- A context as left by a hardware-path `Configure`. -/
def ctxHw : AVContext :=
  { pixFmt := .d3d11, codedWidth := 1920, codedHeight := 1080
    hwDeviceCtxSet := true, getBuffer2Set := false, reorderedOpaque := 0 }

/-- A configured software-path session with a registered callback. -/
def stSw : DecoderState :=
  { freshState with avContext := some ctxSw, avFrame := true
                    decodedImageCallback := true }

/-- A configured software-path session with no registered callback. -/
def stSwNoCb : DecoderState :=
  { freshState with avContext := some ctxSw, avFrame := true }

/-- A configured hardware-path session holding a 2×2 surface. -/
def stHw : DecoderState :=
  { freshState with avContext := some ctxHw, avFrame := true
                    decodedImageCallback := true
                    d3dDevice := some 1, d3dDeviceContext := some 1
                    d3dTexture := some ⟨2, 2⟩
                    hwDeviceContext := true, hwFramesContext := true
                    textureWidth := 2, textureHeight := 2 }

/-- An I420 pooled allocation: 4×4 luma at address 100 (stride 4), 2×2
chroma planes at 116 and 120 (stride 2) — contiguous. -/
def backI420 : BackingBuffer :=
  { btype := .kI420, dataY := 100, dataU := 116, dataV := 120
    strideY := 4, strideU := 2, strideV := 2
    width := 4, height := 4, chromaW := 2, chromaH := 2 }

/-- A well-formed 4×4 frame over `backI420` (round-tripped opaque timestamp
3000 = ntp 3 ms × 1000). -/
def frameSwOk : AVFrameModel :=
  { width := 4, height := 4, reorderedOpaque := 3000
    data0 := 100, data1 := 116, data2 := 120, ls0 := 4, ls1 := 2, ls2 := 2
    backing := backI420 }

/-- A frame over `backI420` whose Y origin (96) lies before the
allocation's Y origin (100): the cropping invariant is violated. -/
def frameSwBad : AVFrameModel :=
  { frameSwOk with data0 := 96 }

/-- A 4×4 hardware frame: `data[0]` holds the texture pointer. -/
def frameHw : AVFrameModel :=
  { width := 4, height := 4, reorderedOpaque := 3000
    data0 := 555, data1 := 0, data2 := 0, ls0 := 0, ls1 := 0, ls2 := 0
    backing := backI420 }

/-- A well-formed 10-byte packet, RTP timestamp 7, ntp 3 ms. -/
def inputOk : EncodedImage :=
  { dataPresent := true, size := 10, timestamp := 7, ntpTimeMs := 3
    colorSpace := none }

/-- A second packet, RTP timestamp 8. -/
def inputOk2 : EncodedImage :=
  { inputOk with timestamp := 8 }

/-- An empty packet (`data()` null, `size()` 0). -/
def inputEmpty : EncodedImage :=
  { inputOk with dataPresent := false, size := 0 }

/-- A packet one byte past `INT_MAX`. -/
def inputOversized : EncodedImage :=
  { inputOk with size := 2147483648 }

/-- A successful software-path engine interaction yielding `frameSwOk`. -/
def engSw : EngineOutcome :=
  { packetAllocOk := true, sendOk := true, recvOk := true
    ctxPixFmt := .yuv420p, frame := frameSwOk, texAllocOk := true
    qp := some 30, streamColorSpace := 5 }

/-- A software-path interaction yielding the bounds-violating `frameSwBad`. -/
def engSwBad : EngineOutcome :=
  { engSw with frame := frameSwBad }

/-- A hardware-path interaction: 4×4 picture, texture allocation succeeds. -/
def engHw : EngineOutcome :=
  { packetAllocOk := true, sendOk := true, recvOk := true
    ctxPixFmt := .d3d11, frame := frameHw, texAllocOk := true
    qp := some 30, streamColorSpace := 5 }

/-- A hardware-path interaction whose texture allocation fails. -/
def engHwTexFail : EngineOutcome :=
  { engHw with texAllocOk := false }

/-- The frame the hardware path delivers for a given input/engine outcome. -/
def hwDeliveredFrame (i : EncodedImage) (e : EngineOutcome) : DeliveredFrame :=
  { buffer := .native e.frame.data0 e.frame.width e.frame.height
    timestampRtp := i.timestamp
    colorSpace := i.colorSpace.getD e.streamColorSpace
    qp := e.qp }

/-- The frame the software path delivers for a given input/engine outcome. -/
def swDeliveredFrame (i : EncodedImage) (e : EngineOutcome) : DeliveredFrame :=
  { buffer := cropWrap e.frame
    timestampRtp := i.timestamp
    colorSpace := i.colorSpace.getD e.streamColorSpace
    qp := e.qp }

/-! ### Helper lemmas -/

theorem reportInit_avContext (st : DecoderState) :
    (reportInit st).avContext = st.avContext := by
  unfold reportInit; split <;> rfl

theorem reportError_avContext (st : DecoderState) :
    (reportError st).avContext = st.avContext := by
  unfold reportError; split <;> rfl

theorem reportError_delivered (st : DecoderState) :
    (reportError st).delivered = st.delivered := by
  unfold reportError; split <;> rfl

theorem initializeD3D11Texture_delivered (st : DecoderState) (w h : Int)
    (ok : Bool) :
    (initializeD3D11Texture st w h ok).2.delivered = st.delivered := rfl

theorem initializeD3D11Texture_textureWidth (st : DecoderState) (w h : Int)
    (ok : Bool) :
    (initializeD3D11Texture st w h ok).2.textureWidth = st.textureWidth := rfl

theorem initializeD3D11Texture_textureHeight (st : DecoderState) (w h : Int)
    (ok : Bool) :
    (initializeD3D11Texture st w h ok).2.textureHeight = st.textureHeight := rfl

theorem initializeD3D11Texture_fst (st : DecoderState) (w h : Int)
    (ok : Bool) :
    (initializeD3D11Texture st w h ok).1 = if ok then 0 else -1 := rfl

/-- A successful `Decode` appends exactly one frame — the hardware-path
native frame or the software-path wrapped frame, by the context pixel
format — to the delivery trace. -/
theorem decode_ok_delivers (st : DecoderState) (i : EncodedImage)
    (e : EngineOutcome) (h : (Decode st i e).1 = .ok) :
    (Decode st i e).2.delivered = st.delivered ++
      [if e.ctxPixFmt = .d3d11 then hwDeliveredFrame i e else swDeliveredFrame i e] := by
  by_cases h1 : IsInitialized st = true
  · by_cases h2 : st.decodedImageCallback = true
    · by_cases h3 : (!i.dataPresent || i.size == 0) = true
      · simp [Decode, h1, h2, h3] at h
      · by_cases h4 : e.packetAllocOk = true
        · by_cases h5 : intMax < i.size
          · simp [Decode, h1, h2, h3, h4, h5] at h
          · by_cases h6 : e.sendOk = true
            · by_cases h7 : e.recvOk = true
              · by_cases h8 : e.ctxPixFmt = .d3d11
                · by_cases h9 : e.frame.width ≠ st.textureWidth ∨
                      e.frame.height ≠ st.textureHeight
                  · by_cases h10 : e.texAllocOk = true
                    · simp [Decode, deliverHw, hwDeliveredFrame,
                        initializeD3D11Texture_fst, initializeD3D11Texture_delivered,
                        initializeD3D11Texture_textureWidth,
                        initializeD3D11Texture_textureHeight,
                        h1, h2, h3, h4, h5, h6, h7, h8, h9, h10]
                    · simp [Decode, initializeD3D11Texture_fst,
                        h1, h2, h3, h4, h5, h6, h7, h8, h9, h10] at h
                  · push_neg at h9
                    simp [Decode, deliverHw, hwDeliveredFrame,
                      h1, h2, h3, h4, h5, h6, h7, h8, h9.1, h9.2]
                · by_cases h10 : supportedVFBType e.frame.backing.btype = true
                  · simp [Decode, deliverSw, swDeliveredFrame,
                      h1, h2, h3, h4, h5, h6, h7, h8, h10]
                  · simp [Decode, h1, h2, h3, h4, h5, h6, h7, h8, h10] at h
              · simp [Decode, h1, h2, h3, h4, h5, h6, h7] at h
            · simp [Decode, h1, h2, h3, h4, h5, h6] at h
        · simp [Decode, h1, h2, h3, h4] at h
    · simp [Decode, h1, h2] at h
  · simp [Decode, h1] at h

theorem deliveredFrame_timestamp (i : EncodedImage) (e : EngineOutcome) :
    (if e.ctxPixFmt = .d3d11 then hwDeliveredFrame i e
     else swDeliveredFrame i e).timestampRtp = i.timestamp := by
  split <;> rfl

theorem initializeD3D11Device_tel (st : DecoderState) (ok : Bool) :
    (initializeD3D11Device st ok).2.hasReportedInit = st.hasReportedInit ∧
    (initializeD3D11Device st ok).2.initEmits = st.initEmits ∧
    (initializeD3D11Device st ok).2.hasReportedError = st.hasReportedError ∧
    (initializeD3D11Device st ok).2.errorEmits = st.errorEmits := by
  unfold initializeD3D11Device; split_ifs <;> simp

theorem configureTail_snd (st : DecoderState) (s : Settings) (env : ConfigureEnv) :
    (configureTail st s env).2 = { st with avFrame := true } := by
  unfold configureTail
  cases s.bufferPoolSize
  · rfl
  · split_ifs <;> rfl

theorem telInv_reportInit (st : DecoderState) (h : TelInv st) :
    TelInv (reportInit st) := by
  unfold TelInv reportInit at *
  split <;> simp_all

theorem telInv_reportError (st : DecoderState) (h : TelInv st) :
    TelInv (reportError st) := by
  unfold TelInv reportError at *
  split <;> simp_all

theorem telInv_of_eq (a b : DecoderState)
    (h1 : a.hasReportedInit = b.hasReportedInit) (h2 : a.initEmits = b.initEmits)
    (h3 : a.hasReportedError = b.hasReportedError) (h4 : a.errorEmits = b.errorEmits)
    (h : TelInv b) : TelInv a := by
  unfold TelInv at *
  rw [h1, h2, h3, h4]
  exact h

theorem telInv_reportError_of_eq (a b : DecoderState)
    (h1 : a.hasReportedInit = b.hasReportedInit) (h2 : a.initEmits = b.initEmits)
    (h3 : a.hasReportedError = b.hasReportedError) (h4 : a.errorEmits = b.errorEmits)
    (h : TelInv b) : TelInv (reportError a) :=
  telInv_reportError a (telInv_of_eq a b h1 h2 h3 h4 h)

theorem telInv_configure (st : DecoderState) (s : Settings) (env : ConfigureEnv)
    (h : TelInv st) : TelInv (Configure st s env).2 := by
  have hI := telInv_reportInit st h
  by_cases hc : s.codecType = .kVideoCodecH264
  · by_cases hf : env.codecFound = true
    · by_cases hw : env.hwFrameCtxInitOk = true <;>
      by_cases ho : env.openHwOk = true <;>
      by_cases hs : env.openSwOk = true <;>
        · simp [Configure, Release, hc, hf, hw, ho, hs, configureTail_snd]
          first
          | exact telInv_reportError _ hI
          | (refine telInv_reportError_of_eq _ (reportInit st) ?_ ?_ ?_ ?_ hI <;>
              first
              | rfl
              | (simp [initializeD3D11Texture, initializeD3D11Device_tel,
                  releaseImpl]; done))
          | (refine telInv_of_eq _ (reportInit st) ?_ ?_ ?_ ?_ hI <;>
              first
              | rfl
              | (simp [initializeD3D11Texture, initializeD3D11Device_tel,
                  releaseImpl]; done))
    · simp [Configure, Release, hc, hf]
      first
      | exact telInv_reportError _ hI
      | (refine telInv_reportError_of_eq _ (reportInit st) ?_ ?_ ?_ ?_ hI <;>
          first
          | rfl
          | (simp [initializeD3D11Texture, initializeD3D11Device_tel,
              releaseImpl]; done))
  · simp [Configure, hc]
    exact telInv_reportError _ hI

theorem telInv_decode (st : DecoderState) (i : EncodedImage) (e : EngineOutcome)
    (h : TelInv st) : TelInv (Decode st i e).2 := by
  by_cases h1 : IsInitialized st = true
  · by_cases h2 : st.decodedImageCallback = true
    · by_cases h3 : (!i.dataPresent || i.size == 0) = true
      · simp [Decode, h1, h2, h3]
        exact telInv_reportError _ h
      · by_cases h4 : e.packetAllocOk = true
        · by_cases h5 : intMax < i.size
          · simp [Decode, h1, h2, h3, h4, h5]
            exact telInv_reportError _ h
          · by_cases h6 : e.sendOk = true
            · by_cases h7 : e.recvOk = true
              · by_cases h8 : e.ctxPixFmt = .d3d11
                · by_cases h9 : e.frame.width ≠ st.textureWidth ∨
                      e.frame.height ≠ st.textureHeight
                  · by_cases h10 : e.texAllocOk = true <;>
                      · simp [Decode, deliverHw, initializeD3D11Texture,
                          h1, h2, h3, h4, h5, h6, h7, h8, h9, h10]
                        refine telInv_of_eq _ st ?_ ?_ ?_ ?_ h <;> rfl
                  · push_neg at h9
                    simp [Decode, deliverHw, h1, h2, h3, h4, h5, h6, h7, h8,
                      h9.1, h9.2]
                    refine telInv_of_eq _ st ?_ ?_ ?_ ?_ h <;> rfl
                · by_cases h10 : supportedVFBType e.frame.backing.btype = true
                  · simp [Decode, deliverSw, h1, h2, h3, h4, h5, h6, h7, h8, h10]
                    refine telInv_of_eq _ st ?_ ?_ ?_ ?_ h <;> rfl
                  · simp [Decode, h1, h2, h3, h4, h5, h6, h7, h8, h10]
                    refine telInv_reportError_of_eq _ st ?_ ?_ ?_ ?_ h <;> rfl
              · simp [Decode, h1, h2, h3, h4, h5, h6, h7]
                refine telInv_reportError_of_eq _ st ?_ ?_ ?_ ?_ h <;> rfl
            · simp [Decode, h1, h2, h3, h4, h5, h6]
              refine telInv_reportError_of_eq _ st ?_ ?_ ?_ ?_ h <;> rfl
        · simp [Decode, h1, h2, h3, h4]
          exact telInv_reportError _ h
    · simp [Decode, h1, h2]
      exact telInv_reportError _ h
  · simp [Decode, h1]
    exact telInv_reportError _ h

theorem telInv_step (st : DecoderState) (op : Op) (h : TelInv st) :
    TelInv (step st op) := by
  cases op with
  | configure s env => exact telInv_configure st s env h
  | decode i e => exact telInv_decode st i e h
  | release => exact telInv_of_eq _ st rfl rfl rfl rfl h
  | registerCallback cb => exact telInv_of_eq _ st rfl rfl rfl rfl h

/-! ### Claim C1 -/

/-- C1 counterexample: a software-path picture whose Y plane origin lies
before the allocation's Y origin (the cropping bounds invariant is
violated), yet `Decode` returns OK and delivers the frame — it does not
fail with a `CorruptPicture` error, because the bounds comparisons are
debug-only `RTC_DCHECK`s with no error-return path. -/
theorem c1_counterexample :
    boundsOk engSwBad.frame = false ∧
    (Decode stSw inputOk engSwBad).1 = .ok ∧
    (Decode stSw inputOk engSwBad).2.delivered.length = 1 := by decide

/-- C1 (amended): on the software path the plane-bounds invariant is only
asserted via debug `RTC_DCHECK`s; a bounds-violating picture does not make
the Decode call fail — the call still returns OK and delivers the wrapped
(reported-dimension) view to the consumer.  There is no `CorruptPicture`
failure path. -/
theorem c1_bounds_violation_not_fatal (st : DecoderState) (i : EncodedImage)
    (e : EngineOutcome)
    (h1 : IsInitialized st = true) (h2 : st.decodedImageCallback = true)
    (h3 : i.dataPresent = true) (h4 : i.size ≠ 0) (h5 : ¬ intMax < i.size)
    (h6 : e.packetAllocOk = true) (h7 : e.sendOk = true) (h8 : e.recvOk = true)
    (h9 : e.ctxPixFmt ≠ .d3d11)
    (h10 : supportedVFBType e.frame.backing.btype = true)
    (h11 : boundsOk e.frame = false) :
    (Decode st i e).1 = .ok ∧
    (Decode st i e).2.delivered = st.delivered ++ [swDeliveredFrame i e] := by
  simp [Decode, deliverSw, swDeliveredFrame, h1, h2, h3, h4, h5, h6, h7, h8,
    h9, h10]

/-- C1 witness: the amended theorem at the concrete bounds-violating frame. -/
theorem c1_bounds_violation_not_fatal_witness :
    (Decode stSw inputOk engSwBad).1 = .ok ∧
    (Decode stSw inputOk engSwBad).2.delivered =
      stSw.delivered ++ [swDeliveredFrame inputOk engSwBad] :=
  c1_bounds_violation_not_fatal stSw inputOk engSwBad rfl rfl rfl (by decide)
    (by decide) rfl rfl rfl (by decide) rfl (by decide)

/-! ### Claim C2 -/

/-- C2 counterexample: an oversized packet (size > INT_MAX) on a configured
session with a callback fails with the generic `WEBRTC_VIDEO_CODEC_ERROR`,
not with the `InvalidArgument` code (`WEBRTC_VIDEO_CODEC_ERR_PARAMETER`)
the claim requires; also the no-callback failure returns the very same code
as the not-configured failure (`WEBRTC_VIDEO_CODEC_UNINITIALIZED`). -/
theorem c2_counterexample :
    (Decode stSw inputOversized engSw).1 = .error ∧
    (Decode stSw inputOversized engSw).1 ≠ .errParameter ∧
    (Decode stSwNoCb inputOk engSw).1 = (Decode freshState inputOk engSw).1 := by
  decide

/-- C2 (amended): `Decode` fails with the NotConfigured code
(`WEBRTC_VIDEO_CODEC_UNINITIALIZED`) when the session is not configured —
this check comes first, so an empty packet before any `Configure` gets
NotConfigured — and with the same code when no callback is registered; it
fails with `WEBRTC_VIDEO_CODEC_ERR_PARAMETER` (InvalidArgument) only when
the packet is empty (null data or zero size); an oversized packet instead
fails with the generic `WEBRTC_VIDEO_CODEC_ERROR`. -/
theorem c2_decode_entry_checks (st : DecoderState) (i : EncodedImage)
    (e : EngineOutcome) :
    (st.avContext = none → Decode st i e = (.uninitialized, reportError st)) ∧
    (st.avContext.isSome → st.decodedImageCallback = false →
      Decode st i e = (.uninitialized, reportError st)) ∧
    (st.avContext.isSome → st.decodedImageCallback = true →
      (i.dataPresent = false ∨ i.size = 0) →
      Decode st i e = (.errParameter, reportError st)) ∧
    (st.avContext.isSome → st.decodedImageCallback = true →
      i.dataPresent = true → i.size ≠ 0 → e.packetAllocOk = true →
      intMax < i.size → Decode st i e = (.error, reportError st)) := by
  refine ⟨fun h1 => ?_, fun h1 h2 => ?_, fun h1 h2 h3 => ?_,
    fun h1 h2 h3 h4 h5 h6 => ?_⟩
  · simp [Decode, IsInitialized, h1]
  · simp [Decode, IsInitialized, h1, h2]
  · rcases h3 with h3 | h3 <;> simp [Decode, IsInitialized, h1, h2, h3]
  · simp [Decode, IsInitialized, h1, h2, h3, h4, h5, h6]

/-- C2 witness: the amended theorem's four cases at concrete inputs — an
unconfigured session, a configured session with no callback, an empty
packet and an oversized packet. -/
theorem c2_decode_entry_checks_witness :
    Decode freshState inputOk engSw = (.uninitialized, reportError freshState) ∧
    Decode stSwNoCb inputOk engSw = (.uninitialized, reportError stSwNoCb) ∧
    Decode stSw inputEmpty engSw = (.errParameter, reportError stSw) ∧
    Decode stSw inputOversized engSw = (.error, reportError stSw) :=
  ⟨(c2_decode_entry_checks freshState inputOk engSw).1 rfl,
   (c2_decode_entry_checks stSwNoCb inputOk engSw).2.1 rfl rfl,
   (c2_decode_entry_checks stSw inputEmpty engSw).2.2.1 rfl rfl (Or.inl rfl),
   (c2_decode_entry_checks stSw inputOversized engSw).2.2.2 rfl rfl rfl
     (by decide) rfl (by decide)⟩

/-! ### Claim C3 -/

/-- C3 counterexample: a 4×4 picture on a hardware session holding a 2×2
surface with the allocation failing makes that `Decode` fail — but the new
dimensions were recorded before the attempt, so a subsequent 4×4 picture
(whose allocation would succeed) does NOT retry the allocation: the
second call succeeds with no surface allocated at all. -/
theorem c3_counterexample :
    (Decode stHw inputOk engHwTexFail).1 = .error ∧
    (Decode stHw inputOk engHwTexFail).2.d3dTexture = none ∧
    (Decode stHw inputOk engHwTexFail).2.textureWidth = 4 ∧
    (Decode (Decode stHw inputOk engHwTexFail).2 inputOk engHw).1 = .ok ∧
    (Decode (Decode stHw inputOk engHwTexFail).2 inputOk engHw).2.d3dTexture =
      none := by
  decide

/-- C3 (amended): on a hardware-path picture whose dimensions differ from
the recorded surface dimensions, the old surface (if any) is released
exactly once and a new shareable surface sized exactly to the picture is
allocated; if the allocation fails the Decode call fails (generic error,
unreported) while the session remains Configured — but the new dimensions
are recorded before the allocation attempt, so a subsequent picture with
those same dimensions does not retry the allocation (only a picture with
different dimensions triggers a new attempt). -/
theorem c3_resolution_change_behavior (st : DecoderState) (i : EncodedImage)
    (e : EngineOutcome)
    (h1 : IsInitialized st = true) (h2 : st.decodedImageCallback = true)
    (h3 : i.dataPresent = true) (h4 : i.size ≠ 0) (h5 : ¬ intMax < i.size)
    (h6 : e.packetAllocOk = true) (h7 : e.sendOk = true) (h8 : e.recvOk = true)
    (h9 : e.ctxPixFmt = .d3d11)
    (h10 : e.frame.width ≠ st.textureWidth ∨ e.frame.height ≠ st.textureHeight) :
    (Decode st i e).2.textureWidth = e.frame.width ∧
    (Decode st i e).2.textureHeight = e.frame.height ∧
    (Decode st i e).2.relOps =
      st.relOps + (if st.d3dTexture.isSome then 1 else 0) ∧
    (e.texAllocOk = true →
      (Decode st i e).2.d3dTexture = some ⟨e.frame.width, e.frame.height⟩ ∧
      (Decode st i e).1 = .ok) ∧
    (e.texAllocOk = false →
      (Decode st i e).1 = .error ∧
      (Decode st i e).2.d3dTexture = none ∧
      IsInitialized (Decode st i e).2 = true) := by
  obtain ⟨c, hc⟩ := Option.isSome_iff_exists.mp (by simpa [IsInitialized] using h1)
  by_cases ht : e.texAllocOk = true <;>
    simp [Decode, deliverHw, initializeD3D11Texture, IsInitialized, hc,
      h2, h3, h4, h5, h6, h7, h8, h9, h10, ht]

/-- C3 witness: the amended theorem at a concrete 2×2 → 4×4 resolution
change with a successful allocation. -/
theorem c3_resolution_change_behavior_witness :
    (Decode stHw inputOk engHw).2.textureWidth = 4 ∧
    (Decode stHw inputOk engHw).2.d3dTexture = some ⟨4, 4⟩ ∧
    (Decode stHw inputOk engHw).1 = .ok := by
  have h := c3_resolution_change_behavior stHw inputOk engHw rfl rfl rfl
    (by decide) (by decide) rfl rfl rfl rfl (Or.inl (by decide))
  exact ⟨h.1, (h.2.2.2.1 rfl).1, (h.2.2.2.1 rfl).2⟩

/-! ### Claim C4 -/

/-- C4 counterexample: a previously configured session stays Configured
(`IsInitialized` still true) after `Configure` with a non-H.264 codec tag
fails — the failure happens before the implicit `Release`, so the session
is not left Uninitialized as the claim requires. -/
theorem c4_counterexample :
    IsInitialized (Configure freshState goodSettings envAllOk).2 = true ∧
    (Configure (Configure freshState goodSettings envAllOk).2
        badCodecSettings envAllOk).1 = false ∧
    IsInitialized (Configure (Configure freshState goodSettings envAllOk).2
        badCodecSettings envAllOk).2 = true := by decide

/-- C4 (amended): `Configure` with a codec kind that is not H.264 fails
(UnsupportedCodec) and leaves the session's configured-ness unchanged: a
fresh session stays Uninitialized but a previously Configured session
remains Configured, because the rejection happens before the implicit
`Release`. -/
theorem c4_configure_unsupported_codec (st : DecoderState) (s : Settings)
    (env : ConfigureEnv) (h : s.codecType ≠ .kVideoCodecH264) :
    (Configure st s env).1 = false ∧
    (Configure st s env).2.avContext = st.avContext ∧
    IsInitialized (Configure st s env).2 = IsInitialized st := by
  simp [Configure, h, IsInitialized, reportError_avContext, reportInit_avContext]

/-- C4 witness: the amended theorem at a concrete configured session and a
VP8 codec tag. -/
theorem c4_configure_unsupported_codec_witness :
    (Configure stSw badCodecSettings envAllOk).1 = false ∧
    (Configure stSw badCodecSettings envAllOk).2.avContext = stSw.avContext ∧
    IsInitialized (Configure stSw badCodecSettings envAllOk).2 =
      IsInitialized stSw :=
  c4_configure_unsupported_codec stSw badCodecSettings envAllOk (by decide)

/-! ### Claim C5 -/

/-- C5 counterexample: `Configure` immediately followed by `Release` is
distinguishable from a freshly constructed session — a first `Configure`
on a fresh session emits the one-time init telemetry event, while the same
`Configure` on the released session emits nothing (the one-time flag
survives `Release`); the released session also still holds the device
handle `Release` never nulls. -/
theorem c5_counterexample :
    (Configure freshState goodSettings envAllOk).2.initEmits -
      freshState.initEmits = 1 ∧
    (Configure (Release (Configure freshState goodSettings envAllOk).2).2
        goodSettings envAllOk).2.initEmits -
      (Release (Configure freshState goodSettings envAllOk).2).2.initEmits = 0 ∧
    (Release (Configure freshState goodSettings envAllOk).2).2.d3dDevice ≠
      freshState.d3dDevice := by decide

/-- C5 (amended): `Release` always returns OK from any state and leaves the
session Uninitialized, and so does calling it again — but it does not null
the D3D11 device/texture handle fields, so a repeated `Release` issues
further release operations on the already-released handles, and a session
after `Configure`+`Release` is not indistinguishable from a fresh one. -/
theorem c5_release_properties (st : DecoderState) :
    (Release st).1 = .ok ∧
    IsInitialized (Release st).2 = false ∧
    (Release (Release st).2).1 = .ok ∧
    IsInitialized (Release (Release st).2).2 = false ∧
    (Release st).2.d3dDevice = st.d3dDevice ∧
    (Release st).2.d3dTexture = st.d3dTexture ∧
    (st.d3dDevice.isSome = true →
      (Release (Release st).2).2.relOps ≠ (Release st).2.relOps) := by
  refine ⟨rfl, rfl, rfl, rfl, rfl, rfl, fun hd => ?_⟩
  simp only [Release, releaseImpl, hd]
  split_ifs <;> simp <;> omega

/-- C5 witness: the amended theorem at a concrete hardware session holding
a device handle. -/
theorem c5_release_properties_witness :
    (Release stHw).1 = .ok ∧
    (Release (Release stHw).2).2.relOps ≠ (Release stHw).2.relOps :=
  ⟨(c5_release_properties stHw).1,
   (c5_release_properties stHw).2.2.2.2.2.2 rfl⟩

/-! ### Claim C6 -/

/-- C6 counterexample: with `[YUV420P]` as the engine's candidate list —
a supported software tag the claimed priority order would select — the
`get_format` callbacks return `AV_PIX_FMT_NONE` (negotiation failure), not
the 4:2:0 8-bit tag, although that tag is in `kPixelFormatsSupported`. -/
theorem c6_counterexample :
    getFormatScan [.yuv420p] = .noneFmt ∧
    getFormatScan2 [.yuv420p] = .noneFmt ∧
    negotiateSpec [.yuv420p] = some .yuv420p ∧
    AVPixelFormat.yuv420p ∈ kPixelFormatsSupported := by decide

/-- C6 (amended): both `get_format` callbacks installed by `Configure`
behave identically and select only the hardware tag: they return D3D11
exactly when D3D11 is among the engine's candidates and `AV_PIX_FMT_NONE`
otherwise — no software tag is ever selected during negotiation (the
software path arises only from reopening the engine with the default
allocator after the hardware open fails; the supported-format list is
enforced only inside the allocation callback). -/
theorem c6_negotiation_only_d3d11 (l : List AVPixelFormat) :
    getFormatScan2 l = getFormatScan l ∧
    (getFormatScan l = .d3d11 ↔ .d3d11 ∈ l) ∧
    (.d3d11 ∉ l → getFormatScan l = .noneFmt) := by
  induction l with
  | nil => simp [getFormatScan, getFormatScan2]
  | cons f rest ih =>
    by_cases hf : f = .d3d11
    · simp [getFormatScan, getFormatScan2, hf]
    · have hf2 : AVPixelFormat.d3d11 ≠ f := fun hx => hf hx.symm
      simp [getFormatScan, getFormatScan2, hf, hf2, ih.1, ih.2.1]
      exact ih.2.2

/-- C6 witness: the amended theorem at concrete candidate lists with and
without the hardware tag. -/
theorem c6_negotiation_only_d3d11_witness :
    getFormatScan2 [AVPixelFormat.yuv420p, .d3d11] =
      getFormatScan [AVPixelFormat.yuv420p, .d3d11] ∧
    getFormatScan [AVPixelFormat.yuv420p, .d3d11] = .d3d11 ∧
    getFormatScan [AVPixelFormat.yuv420p] = .noneFmt :=
  ⟨(c6_negotiation_only_d3d11 _).1,
   (c6_negotiation_only_d3d11 _).2.1.mpr (by decide),
   (c6_negotiation_only_d3d11 _).2.2 (by decide)⟩

/-! ### Claim C7 -/

/-- C7: frames are delivered in packet-submission order — every successful
`Decode` appends exactly one frame, whose RTP timestamp equals the
submitted packet's timestamp, to the delivery trace before returning OK;
over any all-successful decode sequence the delivered timestamps are
exactly the submitted packets' timestamps in order; and when the engine
round-trips the opaque timestamp, the defensive `RTC_DCHECK_EQ`
round-trip comparison holds. -/
theorem c7_frames_in_submission_order :
    (∀ (st : DecoderState) (i : EncodedImage) (e : EngineOutcome),
      (Decode st i e).1 = .ok →
      (Decode st i e).2.delivered = st.delivered ++
        [if e.ctxPixFmt = .d3d11 then hwDeliveredFrame i e
         else swDeliveredFrame i e] ∧
      (if e.ctxPixFmt = .d3d11 then hwDeliveredFrame i e
       else swDeliveredFrame i e).timestampRtp = i.timestamp) ∧
    (∀ (i : EncodedImage) (e : EngineOutcome),
      e.frame.reorderedOpaque = i.ntpTimeMs * 1000 → tsRoundTripOk i e = true) ∧
    (∀ (st : DecoderState) (seq : List (EncodedImage × EngineOutcome)),
      allOk st seq = true →
      (decodeAll st seq).delivered.map DeliveredFrame.timestampRtp =
        st.delivered.map DeliveredFrame.timestampRtp ++
          seq.map (fun p => p.1.timestamp)) := by
  refine ⟨?_, ?_, ?_⟩
  · intro st i e h
    exact ⟨decode_ok_delivers st i e h, deliveredFrame_timestamp i e⟩
  · intro i e h
    simp [tsRoundTripOk, h]
  · intro st seq
    induction seq generalizing st with
    | nil => intro _; simp [decodeAll]
    | cons p rest ih =>
      obtain ⟨i, e⟩ := p
      intro hok
      rw [allOk] at hok
      simp only [Bool.and_eq_true, beq_iff_eq] at hok
      rw [decodeAll, ih _ hok.2, decode_ok_delivers st i e hok.1]
      simp [deliveredFrame_timestamp]

/-- C7 witness: a concrete two-packet software decode sequence delivering
timestamps 7 then 8 in order. -/
theorem c7_frames_in_submission_order_witness :
    (decodeAll stSw [(inputOk, engSw), (inputOk2, engSw)]).delivered.map
      DeliveredFrame.timestampRtp = [7, 8] := by
  have h := c7_frames_in_submission_order.2.2 stSw
    [(inputOk, engSw), (inputOk2, engSw)] (by decide)
  simpa using h

/-! ### Claim C8 -/

/-- C8 counterexample: the telemetry guards are per decoder instance, not
per process — two freshly constructed instances that each run one
successful `Configure` add two init histogram samples to the process; and
the hardware-path texture-allocation failure is a failure path that does
not report through the error event at all. -/
theorem c8_counterexample :
    (Configure freshState goodSettings envAllOk).2.initEmits +
      (Configure freshState goodSettings envAllOk).2.initEmits = 2 ∧
    (Decode stHw inputOk engHwTexFail).1 = .error ∧
    (Decode stHw inputOk engHwTexFail).2.errorEmits = 0 ∧
    (Decode stHw inputOk engHwTexFail).2.hasReportedError = false := by decide

/-- C8 (amended): each telemetry event is deduplicated per decoder
instance: across any sequence of `Configure`, `Decode`, `Release` and
callback-registration operations on one instance starting from the fresh
state, the init event and the error event are each emitted at most once. -/
theorem c8_telemetry_deduplicated_per_instance (ops : List Op) :
    (runOps freshState ops).initEmits ≤ 1 ∧
    (runOps freshState ops).errorEmits ≤ 1 := by
  have key : ∀ (l : List Op) (st : DecoderState), TelInv st →
      TelInv (runOps st l) := by
    intro l
    induction l with
    | nil => intro st h; exact h
    | cons op rest ih => intro st h; exact ih _ (telInv_step st op h)
  obtain ⟨h1, h2⟩ := key ops freshState ⟨rfl, rfl⟩
  constructor
  · rw [h1]; split <;> omega
  · rw [h2]; split <;> omega

/-! ### Claim C9 -/

/-- C9 counterexample: for the NV12 (semi-planar) format — which is in
`kPixelFormatsSupported` — the contiguity assertion block of `AVGetBuffer2`
is not valid: the second `RTC_DCHECK_EQ` compares the never-written third
plane pointer (still zero) against `data[1] + uv_size`, and fails on a
concrete 2×2 allocation. -/
theorem c9_counterexample :
    allocAndCheck .nv12 2 2 64 = some false ∧
    AVPixelFormat.nv12 ∈ kPixelFormatsSupported := by decide

/-- C9 (amended): for every three-plane planar format the buffers returned
by the allocation callback are laid out contiguously and both contiguity
assertions hold (`data[1] = data[0] + y_size`, `data[2] = data[1] +
uv_size`, with the 16-bit byte sizes matching the doubled linesizes); for
the two-plane NV12 layout only the first equation holds — the third-plane
assertion is not valid because `data[2]` is never set. -/
theorem c9_contiguity_three_plane_only (w h base : Int) :
    allocAndCheck .yuv420p w h base = some true ∧
    allocAndCheck .yuvj420p w h base = some true ∧
    allocAndCheck .yuv422p w h base = some true ∧
    allocAndCheck .yuvj422p w h base = some true ∧
    allocAndCheck .yuv444p w h base = some true ∧
    allocAndCheck .yuvj444p w h base = some true ∧
    allocAndCheck .yuv420p10le w h base = some true ∧
    allocAndCheck .yuv422p10le w h base = some true ∧
    allocAndCheck .yuv444p10le w h base = some true ∧
    (avGetBuffer2Planes .nv12 w h base).map
      (fun p => p.data1 == p.data0 + w * h * bytesPerPixel .nv12) = some true := by
  refine ⟨?_, ?_, ?_, ?_, ?_, ?_, ?_, ?_, ?_, ?_⟩ <;>
    simp [allocAndCheck, avGetBuffer2Planes, contiguityCheck, chromaDims,
      bytesPerPixel] <;>
    (try constructor) <;> ring

/-! ### Claim C10 -/

/-- C10: every hardware-path frame delivered to the consumer wraps a
`NativeHandleBuffer` whose `type()` is `kNative` and whose `ToI420()`
returns null, so no software planar view of a hardware frame exists. -/
theorem c10_hardware_frames_are_native (st : DecoderState) (i : EncodedImage)
    (e : EngineOutcome) (h : (Decode st i e).1 = .ok)
    (hfmt : e.ctxPixFmt = .d3d11) :
    (Decode st i e).2.delivered = st.delivered ++ [hwDeliveredFrame i e] ∧
    (hwDeliveredFrame i e).buffer.bufferType = .kNative ∧
    (hwDeliveredFrame i e).buffer.toI420 = none := by
  refine ⟨?_, rfl, rfl⟩
  have hd := decode_ok_delivers st i e h
  rwa [if_pos hfmt] at hd

/-- C10 witness: the theorem at a concrete successful hardware decode. -/
theorem c10_hardware_frames_are_native_witness :
    (Decode stHw inputOk engHw).2.delivered =
      stHw.delivered ++ [hwDeliveredFrame inputOk engHw] ∧
    (hwDeliveredFrame inputOk engHw).buffer.bufferType = .kNative ∧
    (hwDeliveredFrame inputOk engHw).buffer.toI420 = none :=
  c10_hardware_frames_are_native stHw inputOk engHw (by decide) rfl

end H264Dec
